import Mathlib

/-!
# SimOS: a call-driven simulator of an operating system's process manager

Shallow embedding of `src/SimOS.h` and `src/SimOS.cpp`.

* The records `FileReadRequest`, `MemoryItem`, `Process` and the private state of
  `class SimOS` are structures with the fields of the header, in the header's order.
  `int` is `Int`, `unsigned long long` is `Nat` (no arithmetic is performed anywhere in
  `SimOS.cpp`, so no wrap-around can occur), `std::vector` and `std::queue` are `List`
  (front of the queue = head of the list), `std::unordered_map<int, Process>` is an
  association list.
* Every member function is translated from its body in `SimOS.cpp`.  All bodies there
  are empty.  A `void` member function therefore maps the engine state to itself.  A
  member function with a result type whose body has no `return` statement produces no
  value: its result is `Option`, and it is `none`.
* The constructor has no member-initialiser list and an empty body, so the class-type
  members are default-constructed (empty containers) and the scalar members
  `totalRAM`, `usedRAM`, `nextPID`, `cpuPID` keep whatever the storage held.  Those four
  values are the parameter `Indeterminate` of the constructor.
-/

set_option linter.unusedVariables false

/-- Record `FileReadRequest` of `SimOS.h`; both fields carry the header's default
member initialisers. -/
structure FileReadRequest where
  PID : Int := 0
  fileName : String := ""
  deriving DecidableEq, Repr

/-- Record `MemoryItem` of `SimOS.h`. -/
structure MemoryItem where
  itemAddress : Nat
  itemSize : Nat
  PID : Int
  deriving DecidableEq, Repr

/-- Record `Process` of `SimOS.h`. -/
structure Process where
  PID : Int
  priority : Int
  size : Nat
  parentPID : Int
  children : List Int
  isWaiting : Bool := false
  isZombie : Bool := false
  deriving DecidableEq, Repr

/-- Alias `MemoryUse` of `SimOS.h`: `std::vector<MemoryItem>`. -/
abbrev MemoryUse := List MemoryItem

/-- Constant `NO_PROCESS` of `SimOS.h`. -/
def NO_PROCESS : Int := -1

/-- Private state of `class SimOS` (`SimOS.h`, lines 111-126). -/
structure SimOS where
  totalRAM : Nat
  usedRAM : Nat
  nextPID : Int
  processTable : List (Int × Process)
  readyQueue : List Int
  cpuPID : Int
  memoryUsage : MemoryUse
  disks : List FileReadRequest
  diskQueues : List (List FileReadRequest)
  deriving DecidableEq, Repr

/-- Values that the storage of the four scalar members holds when the constructor
starts; the constructor never assigns them. -/
structure Indeterminate where
  totalRAM : Nat
  usedRAM : Nat
  nextPID : Int
  cpuPID : Int
  deriving DecidableEq, Repr

/-- Constructor `SimOS::SimOS` (`SimOS.cpp`, lines 8-10): no member-initialiser list,
empty body.  The containers are default-constructed, the scalars are left as found,
and none of the three arguments is used.  (Named `new` because inside the namespace
of the structure the name `SimOS` has to keep denoting the state type.) -/
def SimOS.new (numberOfDisks : Int) (amountOfRAM sizeOfOS : Nat) (u : Indeterminate) :
    SimOS where
  totalRAM := u.totalRAM
  usedRAM := u.usedRAM
  nextPID := u.nextPID
  processTable := []
  readyQueue := []
  cpuPID := u.cpuPID
  memoryUsage := []
  disks := []
  diskQueues := []

/-- Member `SimOS::NewProcess` (`SimOS.cpp`, lines 19-21): empty body.  No member is
assigned and no `return` statement is executed, so no `bool` is produced. -/
def SimOS.NewProcess (s : SimOS) (size : Nat) (priority : Int) : SimOS × Option Bool :=
  (s, none)

/-- Member `SimOS::SimFork` (`SimOS.cpp`, lines 28-30): empty body, no `return`. -/
def SimOS.SimFork (s : SimOS) : SimOS × Option Bool :=
  (s, none)

/-- Member `SimOS::SimExit` (`SimOS.cpp`, lines 37-39): empty body. -/
def SimOS.SimExit (s : SimOS) : SimOS :=
  s

/-- Member `SimOS::SimWait` (`SimOS.cpp`, lines 45-47): empty body. -/
def SimOS.SimWait (s : SimOS) : SimOS :=
  s

/-- Member `SimOS::DiskReadRequest` (`SimOS.cpp`, lines 53-55): empty body. -/
def SimOS.DiskReadRequest (s : SimOS) (diskNumber : Int) (fileName : String) : SimOS :=
  s

/-- Member `SimOS::DiskJobCompleted` (`SimOS.cpp`, lines 60-62): empty body. -/
def SimOS.DiskJobCompleted (s : SimOS) (diskNumber : Int) : SimOS :=
  s

/-- Member `SimOS::GetCPU` (`SimOS.cpp`, lines 67-69): empty body, no `return`. -/
def SimOS.GetCPU (s : SimOS) : Option Int :=
  none

/-- Member `SimOS::GetReadyQueue` (`SimOS.cpp`, lines 74-76): empty body, no `return`. -/
def SimOS.GetReadyQueue (s : SimOS) : Option (List Int) :=
  none

/-- Member `SimOS::GetMemory` (`SimOS.cpp`, lines 83-85): empty body, no `return`. -/
def SimOS.GetMemory (s : SimOS) : Option MemoryUse :=
  none

/-- Member `SimOS::GetDisk` (`SimOS.cpp`, lines 90-92): empty body, no `return`. -/
def SimOS.GetDisk (s : SimOS) (diskNumber : Int) : Option FileReadRequest :=
  none

/-- Member `SimOS::GetDiskQueue` (`SimOS.cpp`, lines 97-99): empty body, no `return`. -/
def SimOS.GetDiskQueue (s : SimOS) (diskNumber : Int) : Option (List FileReadRequest) :=
  none

/-! ## Driver: sequences of events -/

/-- One call of the driver to an event operation of the public interface. -/
inductive Event where
  | NewProcess (size : Nat) (priority : Int)
  | SimFork
  | SimExit
  | SimWait
  | DiskReadRequest (diskNumber : Int) (fileName : String)
  | DiskJobCompleted (diskNumber : Int)
  deriving DecidableEq, Repr

/-- Engine state after one event (the `bool` of `NewProcess` and `SimFork` is dropped). -/
def SimOS.step (s : SimOS) : Event → SimOS
  | .NewProcess size priority => (s.NewProcess size priority).1
  | .SimFork => s.SimFork.1
  | .SimExit => s.SimExit
  | .SimWait => s.SimWait
  | .DiskReadRequest d f => s.DiskReadRequest d f
  | .DiskJobCompleted d => s.DiskJobCompleted d

/-- Engine state after a sequence of events, first event first. -/
def SimOS.run (s : SimOS) (es : List Event) : SimOS :=
  es.foldl SimOS.step s

/-- Results of a sequence of `NewProcess` calls, issued one after the other, together
with the final engine state. -/
def SimOS.newProcesses (s : SimOS) : List (Nat × Int) → SimOS × List (Option Bool)
  | [] => (s, [])
  | (size, priority) :: rest =>
    let r := s.NewProcess size priority
    let t := SimOS.newProcesses r.1 rest
    (t.1, r.2 :: t.2)

/-- Look a PID up in the process table. -/
def SimOS.findProcess (s : SimOS) (pid : Int) : Option Process :=
  s.processTable.lookup pid

/-- Blocks of the memory layout owned by a PID. -/
def SimOS.blocksOf (s : SimOS) (pid : Int) : List MemoryItem :=
  s.memoryUsage.filter (fun m => m.PID == pid)

/-! ## Shared lemmas -/

theorem SimOS.step_eq (s : SimOS) (e : Event) : s.step e = s := by
  cases e <;> rfl

theorem SimOS.run_eq (s : SimOS) (es : List Event) : s.run es = s := by
  induction es with
  | nil => rfl
  | cons e es ih =>
    show (s.step e).run es = s
    rw [SimOS.step_eq]
    exact ih

theorem SimOS.newProcesses_state (s : SimOS) (calls : List (Nat × Int)) :
    (s.newProcesses calls).1 = s := by
  induction calls with
  | nil => rfl
  | cons c rest ih =>
    obtain ⟨size, priority⟩ := c
    exact ih

theorem SimOS.newProcesses_results (s : SimOS) (calls : List (Nat × Int)) :
    (s.newProcesses calls).2 = calls.map (fun _ => none) := by
  induction calls with
  | nil => rfl
  | cons c rest ih =>
    obtain ⟨size, priority⟩ := c
    show none :: (SimOS.newProcesses s rest).2 = none :: rest.map (fun _ => none)
    rw [ih]

theorem SimOS.NewProcess_eq (s : SimOS) (size : Nat) (priority : Int) :
    s.NewProcess size priority = (s, none) :=
  rfl

theorem SimOS.SimFork_eq (s : SimOS) : s.SimFork = (s, none) :=
  rfl

/-- After a construction and any sequence of events the process table, the ready
queue, the memory layout, the vector of disks and the vector of disk queues are all
empty: nothing in `SimOS.cpp` ever inserts into them. -/
theorem SimOS.run_new_containers (numberOfDisks : Int) (amountOfRAM sizeOfOS : Nat)
    (u : Indeterminate) (es : List Event) :
    ((SimOS.new numberOfDisks amountOfRAM sizeOfOS u).run es).processTable = [] ∧
    ((SimOS.new numberOfDisks amountOfRAM sizeOfOS u).run es).readyQueue = [] ∧
    ((SimOS.new numberOfDisks amountOfRAM sizeOfOS u).run es).memoryUsage = [] ∧
    ((SimOS.new numberOfDisks amountOfRAM sizeOfOS u).run es).disks = [] ∧
    ((SimOS.new numberOfDisks amountOfRAM sizeOfOS u).run es).diskQueues = [] := by
  rw [SimOS.run_eq]
  exact ⟨rfl, rfl, rfl, rfl, rfl⟩

/-- After a construction and any sequence of events no PID has a record in the process
table; in particular the value of the CPU slot is never the PID of a process. -/
theorem SimOS.run_new_findProcess (numberOfDisks : Int) (amountOfRAM sizeOfOS : Nat)
    (u : Indeterminate) (es : List Event) (pid : Int) :
    ((SimOS.new numberOfDisks amountOfRAM sizeOfOS u).run es).findProcess pid = none := by
  rw [SimOS.run_eq]
  rfl

/-! ## Construction and process creation -/

/-- C1 (defect of the code).  The claim: after `SimOS(numberOfDisks, totalRAM, sizeOfOS)`
the memory layout is `[(0, sizeOfOS, 1)]`, the ready queue is empty, the CPU is idle and
every disk `d < numberOfDisks` is idle with an empty queue.  The code: the constructor
has an empty body, so for all arguments the memory layout is the empty vector (never
the one-block layout), there is no OS process in the table, the vectors of disks and
of disk queues have length 0 whatever `numberOfDisks` is, the CPU slot holds what the
storage held before, and no query function returns a value. -/
theorem C1_constructor_builds_nothing (numberOfDisks : Int) (amountOfRAM sizeOfOS : Nat)
    (u : Indeterminate) :
    (SimOS.new numberOfDisks amountOfRAM sizeOfOS u).memoryUsage = [] ∧
    (SimOS.new numberOfDisks amountOfRAM sizeOfOS u).memoryUsage ≠ [⟨0, sizeOfOS, 1⟩] ∧
    (SimOS.new numberOfDisks amountOfRAM sizeOfOS u).GetMemory ≠ some [⟨0, sizeOfOS, 1⟩] ∧
    (SimOS.new numberOfDisks amountOfRAM sizeOfOS u).findProcess 1 = none ∧
    (SimOS.new numberOfDisks amountOfRAM sizeOfOS u).disks.length = 0 ∧
    (SimOS.new numberOfDisks amountOfRAM sizeOfOS u).diskQueues.length = 0 ∧
    (SimOS.new numberOfDisks amountOfRAM sizeOfOS u).GetDisk 0 ≠ some ⟨0, ""⟩ ∧
    (SimOS.new numberOfDisks amountOfRAM sizeOfOS u).GetDiskQueue 0 ≠ some [] ∧
    (SimOS.new numberOfDisks amountOfRAM sizeOfOS u).totalRAM = u.totalRAM ∧
    (SimOS.new numberOfDisks amountOfRAM sizeOfOS u).cpuPID = u.cpuPID ∧
    (SimOS.new numberOfDisks amountOfRAM sizeOfOS u).GetCPU = none ∧
    (SimOS.new numberOfDisks amountOfRAM sizeOfOS u).GetReadyQueue ≠ some [] := by
  refine ⟨rfl, ?_, ?_, rfl, rfl, rfl, ?_, ?_, rfl, rfl, rfl, ?_⟩ <;>
    simp [SimOS.new, SimOS.GetMemory, SimOS.GetDisk, SimOS.GetDiskQueue, SimOS.GetReadyQueue]

/-- C2 (defect of the code).  The claim: on a fresh engine every `NewProcess` call of a
sequence that fits into the free memory returns true and the k-th call creates PID
`k + 1` with one block of its size.  The code: `NewProcess` has an empty body.  After
`SimOS(2, 1000000, 100000)` the calls `NewProcess(1000, 5)`, `NewProcess(2000, 3)`
(3000 bytes of 900000 free) return no value, the process table stays empty, neither
PID 2 nor PID 3 owns a block, and the next PID is not advanced. -/
theorem C2_newProcess_sequence_creates_nothing (u : Indeterminate) :
    ((SimOS.new 2 1000000 100000 u).newProcesses [(1000, 5), (2000, 3)]).2 = [none, none] ∧
    ((SimOS.new 2 1000000 100000 u).newProcesses [(1000, 5), (2000, 3)]).2
      ≠ [some true, some true] ∧
    ((SimOS.new 2 1000000 100000 u).newProcesses [(1000, 5), (2000, 3)]).1.findProcess 2
      = none ∧
    ((SimOS.new 2 1000000 100000 u).newProcesses [(1000, 5), (2000, 3)]).1.findProcess 3
      = none ∧
    ((SimOS.new 2 1000000 100000 u).newProcesses [(1000, 5), (2000, 3)]).1.blocksOf 2
      = [] ∧
    ((SimOS.new 2 1000000 100000 u).newProcesses [(1000, 5), (2000, 3)]).1.blocksOf 3
      = [] ∧
    ((SimOS.new 2 1000000 100000 u).newProcesses [(1000, 5), (2000, 3)]).1.nextPID
      = u.nextPID := by
  refine ⟨rfl, ?_, rfl, rfl, rfl, rfl, rfl⟩
  simp [SimOS.newProcesses, SimOS.NewProcess]

/-! ## Invariants over the reachable states -/

/-- C13 (defect of the code).  The claim: in every state reachable from a valid
construction the memory layout is ascending and free of overlap inside
`[0, totalRAM)` and its first block is `(0, sizeOfOS, 1)`.  The code: the constructor
creates no block and no event has a body, so after `SimOS(2, 1000000, 100000)` and any
sequence of events the memory layout is the empty vector: it has no first block, the
OS owns no block, and `GetMemory()` returns no value. -/
theorem C13_reachable_memory_has_no_os_block (u : Indeterminate) (es : List Event) :
    ((SimOS.new 2 1000000 100000 u).run es).memoryUsage = [] ∧
    ((SimOS.new 2 1000000 100000 u).run es).memoryUsage.head? ≠ some ⟨0, 100000, 1⟩ ∧
    ((SimOS.new 2 1000000 100000 u).run es).blocksOf 1 = [] ∧
    ((SimOS.new 2 1000000 100000 u).run es).totalRAM = u.totalRAM ∧
    ((SimOS.new 2 1000000 100000 u).run es).GetMemory = none := by
  rw [SimOS.run_eq]
  refine ⟨rfl, ?_, rfl, rfl, rfl⟩
  simp [SimOS.new]

/-- C15 (defect of the code).  The claim: in every reachable state the PIDs of the
ready queue together with the CPU occupant are exactly the processes of the table that
are neither zombie, blocked on a disk nor waiting.  The code: the constructor never
assigns `cpuPID` and no event has a body, so in every reachable state the CPU slot is
the value the storage held and the table and the ready queue are empty.  When the
storage held 7, the CPU slot is 7 after `SimOS(2, 1000000, 100000)` and any sequence of
events: it is neither `NO_PROCESS` nor 0, and PID 7 is not a process of the (empty)
table; `GetCPU()` and `GetReadyQueue()` return no value. -/
theorem C15_cpu_slot_is_never_assigned (u : Indeterminate) (es : List Event) :
    ((SimOS.new 2 1000000 100000 u).run es).cpuPID = u.cpuPID ∧
    ((SimOS.new 2 1000000 100000 ⟨0, 0, 0, 7⟩).run es).cpuPID = 7 ∧
    ((SimOS.new 2 1000000 100000 ⟨0, 0, 0, 7⟩).run es).cpuPID ≠ NO_PROCESS ∧
    ((SimOS.new 2 1000000 100000 ⟨0, 0, 0, 7⟩).run es).cpuPID ≠ 0 ∧
    ((SimOS.new 2 1000000 100000 ⟨0, 0, 0, 7⟩).run es).findProcess 7 = none ∧
    ((SimOS.new 2 1000000 100000 ⟨0, 0, 0, 7⟩).run es).processTable = [] ∧
    ((SimOS.new 2 1000000 100000 ⟨0, 0, 0, 7⟩).run es).readyQueue = [] ∧
    ((SimOS.new 2 1000000 100000 ⟨0, 0, 0, 7⟩).run es).GetCPU = none ∧
    ((SimOS.new 2 1000000 100000 ⟨0, 0, 0, 7⟩).run es).GetReadyQueue = none := by
  rw [SimOS.run_eq, SimOS.run_eq]
  refine ⟨rfl, rfl, ?_, ?_, rfl, rfl, rfl, rfl, rfl⟩ <;>
    simp [SimOS.new, NO_PROCESS]

/-! ## Operations that leave the engine as it is -/

/-- C17.  As implemented, each of the void event operations `SimExit()`, `SimWait()`,
`DiskReadRequest(diskNumber, fileName)` and `DiskJobCompleted(diskNumber)` returns, for
every engine state and every argument (any integer as disk number, in range or not),
an engine state equal to the one before the call, and so every field (`totalRAM`,
`usedRAM`, `nextPID`, `processTable`, `readyQueue`, `cpuPID`, `memoryUsage`, `disks`,
`diskQueues`) has its value from before the call. -/
theorem C17_void_events_change_no_field (s : SimOS) (diskNumber : Int) (fileName : String) :
    (s.SimExit = s ∧ s.SimWait = s ∧
      s.DiskReadRequest diskNumber fileName = s ∧ s.DiskJobCompleted diskNumber = s) ∧
    (s.SimExit.totalRAM = s.totalRAM ∧
      s.SimExit.usedRAM = s.usedRAM ∧
      s.SimExit.nextPID = s.nextPID ∧
      s.SimExit.processTable = s.processTable ∧
      s.SimExit.readyQueue = s.readyQueue ∧
      s.SimExit.cpuPID = s.cpuPID ∧
      s.SimExit.memoryUsage = s.memoryUsage ∧
      s.SimExit.disks = s.disks ∧
      s.SimExit.diskQueues = s.diskQueues) ∧
    (s.SimWait.totalRAM = s.totalRAM ∧
      s.SimWait.usedRAM = s.usedRAM ∧
      s.SimWait.nextPID = s.nextPID ∧
      s.SimWait.processTable = s.processTable ∧
      s.SimWait.readyQueue = s.readyQueue ∧
      s.SimWait.cpuPID = s.cpuPID ∧
      s.SimWait.memoryUsage = s.memoryUsage ∧
      s.SimWait.disks = s.disks ∧
      s.SimWait.diskQueues = s.diskQueues) ∧
    ((s.DiskReadRequest diskNumber fileName).totalRAM = s.totalRAM ∧
      (s.DiskReadRequest diskNumber fileName).usedRAM = s.usedRAM ∧
      (s.DiskReadRequest diskNumber fileName).nextPID = s.nextPID ∧
      (s.DiskReadRequest diskNumber fileName).processTable = s.processTable ∧
      (s.DiskReadRequest diskNumber fileName).readyQueue = s.readyQueue ∧
      (s.DiskReadRequest diskNumber fileName).cpuPID = s.cpuPID ∧
      (s.DiskReadRequest diskNumber fileName).memoryUsage = s.memoryUsage ∧
      (s.DiskReadRequest diskNumber fileName).disks = s.disks ∧
      (s.DiskReadRequest diskNumber fileName).diskQueues = s.diskQueues) ∧
    ((s.DiskJobCompleted diskNumber).totalRAM = s.totalRAM ∧
      (s.DiskJobCompleted diskNumber).usedRAM = s.usedRAM ∧
      (s.DiskJobCompleted diskNumber).nextPID = s.nextPID ∧
      (s.DiskJobCompleted diskNumber).processTable = s.processTable ∧
      (s.DiskJobCompleted diskNumber).readyQueue = s.readyQueue ∧
      (s.DiskJobCompleted diskNumber).cpuPID = s.cpuPID ∧
      (s.DiskJobCompleted diskNumber).memoryUsage = s.memoryUsage ∧
      (s.DiskJobCompleted diskNumber).disks = s.disks ∧
      (s.DiskJobCompleted diskNumber).diskQueues = s.diskQueues) := by
  refine ⟨⟨rfl, rfl, rfl, rfl⟩, ?_, ?_, ?_, ?_⟩ <;>
    exact ⟨rfl, rfl, rfl, rfl, rfl, rfl, rfl, rfl, rfl⟩
